import Mathlib

/-!
Verification of the EPV (Earnings Power Value) valuation engine of the
repository `LIVE-COPILOT-TEST-v_2.0`, a shallow embedding of
`src/epv_valuation_model/epv_calculator.py`, `risk_analyzer.py` and the
constants of `config.py`.

Modelling conventions:
* Python floats are embedded as rationals (`ℚ`); the code under scrutiny
  performs only field arithmetic, comparisons, `abs`, `min`/`max` and
  arithmetic means, all of which are exact on `ℚ`.
* A pandas cell is `Option ℚ`: `none` models both a missing cell and `NaN`
  (the code always tests cells with `pd.notna` / `pd.isna` before use, so
  the two are observationally identical).  IEEE infinities that pandas
  would produce on division by zero are likewise collapsed to `none`; no
  code path relevant to the claims divides by zero without a guard.
* A processed `pd.DataFrame` is a `Statement`: a list of column labels
  (fiscal years, stored most-recent first, as produced by the data
  processor) and a list of rows, each a line-item name paired with the
  per-column cells.  `.loc` row access with a duplicated index takes the
  first matching row in the source ("selecting first row"), which is what
  `List.find?` gives us.
-/

namespace EPV

/-! ## Constants from `config.py` -/

def DEFAULT_NORMALIZATION_YEARS : ℕ := 7

def DEFAULT_WACC_NORMALIZATION_YEARS : ℕ := 5

def EQUITY_RISK_PREMIUM : ℚ := 55/1000

def DEBT_RISK_PREMIUM : ℚ := 2/100

def DEFAULT_EFFECTIVE_TAX_RATE : ℚ := 21/100

def MIN_EFFECTIVE_TAX_RATE : ℚ := 5/100

def MAX_EFFECTIVE_TAX_RATE : ℚ := 40/100

def MIN_PRETAX_COST_OF_DEBT : ℚ := 5/1000

def MAX_PRETAX_COST_OF_DEBT : ℚ := 20/100

def DEFAULT_BETA : ℚ := 1

def SENSITIVITY_RANGE_PERCENT : ℚ := 20/100

def SENSITIVITY_STEPS : ℕ := 5

def S_REVENUE : String := "Total Revenue"

def S_OPERATING_INCOME : String := "Operating Income"

def S_INTEREST_EXPENSE : String := "Interest Expense"

def S_PRETAX_INCOME : String := "Pretax Income"

def S_TAX_PROVISION : String := "Tax Provision"

def S_GROSS_PPE : String := "Gross PPE"

def S_NET_PPE : String := "Net PPE"

def S_CASH_EQUIVALENTS : String := "Cash And Cash Equivalents"

def S_SHORT_TERM_INVESTMENTS : String := "Short Term Investments"

def S_TOTAL_DEBT : String := "Total Debt"

def S_SHORT_LONG_TERM_DEBT : String := "Short Long Term Debt"

def S_LONG_TERM_DEBT : String := "Long Term Debt"

def S_PREFERRED_STOCK_VALUE : String := "Preferred Stock"

def S_NONCONTROLLING_INTEREST : String := "Noncontrolling Interest"

def S_CAPEX : String := "Capital Expenditures"

def S_DEPRECIATION_CF : String := "Depreciation"

/-! ## Data model -/

/-- A processed financial statement: column labels (fiscal years, most
recent first) and rows of line items. -/
structure Statement where
  cols : List Int
  rows : List (String × List (Option ℚ))
deriving DecidableEq

/-- First row with the given label, if any. -/
def findRow (name : String) : List (String × List (Option ℚ)) → Option (List (Option ℚ))
  | [] => none
  | r :: rs => if r.1 = name then some r.2 else findRow name rs

/-- `name in df.index` (membership in the row index). -/
def Statement.hasRow (s : Statement) (name : String) : Bool :=
  (findRow name s.rows).isSome

/-- `df.loc[name]`: the first row with the given label, `[]` if absent. -/
def Statement.getRow (s : Statement) (name : String) : List (Option ℚ) :=
  (findRow name s.rows).getD []

/-- Position of a column label. -/
def idxOfCol (c : Int) : List Int → Option ℕ
  | [] => none
  | x :: xs => if x = c then some 0 else (idxOfCol c xs).map (fun i => i + 1)

/-- The cell of a row at the column labelled `c` (label-based reindexing). -/
def Statement.cell (s : Statement) (name : String) (c : Int) : Option ℚ :=
  match idxOfCol c s.cols with
  | some i => ((s.getRow name).get? i).join
  | none => none

/-- A row re-indexed to the given column labels. -/
def rowAt (s : Statement) (name : String) (cs : List Int) : List (Option ℚ) :=
  cs.map (fun c => s.cell name c)

/-- `df.iloc[:, 0].get(name)`-style access: the most recent (first stored)
cell of a row; `none` when the row is absent or the cell is `NaN`. -/
def latestCell (s : Statement) (name : String) : Option ℚ :=
  ((s.getRow name).head?).join

/-- Company profile, from `stock_details`; `none` models a missing or
`NaN` entry (the code tests both before use). -/
structure StockDetails where
  beta : Option ℚ
  market_cap : Option ℚ
deriving DecidableEq

/-! ## Numeric helpers -/

/-- Elementwise pandas division of two cells.  `NaN` operands give `NaN`;
a zero divisor is also sent to the absent marker (pandas produces an IEEE
infinity there, which no claim-relevant path distinguishes from `NaN`). -/
def divOpt : Option ℚ → Option ℚ → Option ℚ
  | some a, some b => if b = 0 then none else some (a / b)
  | _, _ => none

/-- Arithmetic mean of a list of rationals (callers guard nonemptiness). -/
def meanQ (l : List ℚ) : ℚ :=
  l.sum / (l.length : ℚ)

/-- `Series.mean(skipna=True)`: mean of the present values, `NaN` (`none`)
when no value is present. -/
def meanOpt (l : List (Option ℚ)) : Option ℚ :=
  match l.filterMap id with
  | [] => none
  | v => some (meanQ v)

/-- Clamp to the configured effective-tax-rate bounds
(`max(MIN, min(x, MAX))` in the source). -/
def clampRate (x : ℚ) : ℚ :=
  max MIN_EFFECTIVE_TAX_RATE (min x MAX_EFFECTIVE_TAX_RATE)

/-- Clamp to the configured pre-tax cost-of-debt bounds. -/
def clampCod (x : ℚ) : ℚ :=
  max MIN_PRETAX_COST_OF_DEBT (min x MAX_PRETAX_COST_OF_DEBT)

/-! ## `calculate_normalized_ebit` (epv_calculator.py lines 16-101) -/

/-- `calculate_normalized_ebit`: average operating margin over the first
`num_years` columns applied to the latest year's revenue.  Returns
`(normalized_ebit, average_operating_margin)`, or `none` on the failure
paths of the source (required rows missing, empty frame, margin mean
`NaN`, latest revenue `NaN`).  The source's defensive duplicate-index and
Series-mean branches are unreachable in this model (`.loc` is modelled as
first-match and the mean of a Series of cells is a scalar). -/
def calculate_normalized_ebit (income_statement : Statement) (num_years : ℕ) :
    Option (ℚ × ℚ) :=
  if income_statement.hasRow S_REVENUE ∧ income_statement.hasRow S_OPERATING_INCOME then
    if income_statement.cols.length = 0 then none
    else
      match meanOpt (List.zipWith divOpt
          ((income_statement.getRow S_OPERATING_INCOME).take num_years)
          ((income_statement.getRow S_REVENUE).take num_years)) with
      | none => none
      | some avg =>
        match ((income_statement.getRow S_REVENUE).take num_years).head? with
        | some (some latest) => some (latest * avg, avg)
        | _ => none
  else none

/-! ## `calculate_nopat` (epv_calculator.py lines 206-248) -/

/-- One year's contribution to the historical effective-tax-rate list:
`tax_provision / pretax_income` when `pretax_income > 0`, the literal rate
`0` when the tax provision is `0` and `pretax_income ≤ 0`, nothing
otherwise (lines 227-230 of the source). -/
def yearTaxRate : Option ℚ × Option ℚ → Option ℚ
  | (some t, some p) =>
      if 0 < p then some (t / p)
      else if t = 0 ∧ p ≤ 0 then some 0
      else none
  | _ => none

/-- The list of per-year effective tax rates collected by
`calculate_nopat` over the first `n` columns. -/
def nopatTaxRates (is : Statement) (n : ℕ) : List ℚ :=
  (List.zip ((is.getRow S_TAX_PROVISION).take n)
            ((is.getRow S_PRETAX_INCOME).take n)).filterMap yearTaxRate

/-- The effective tax rate `calculate_nopat` applies: the configured
default when no year qualified, otherwise the clamped mean.  (The
source's final `pd.isna` safeguard is unreachable over `ℚ`: a mean of
rationals is never `NaN`.) -/
def nopatEffectiveTaxRate (is : Statement) (n : ℕ) : ℚ :=
  let rates := nopatTaxRates is n
  if rates = [] then DEFAULT_EFFECTIVE_TAX_RATE
  else clampRate (meanQ rates)

/-- `calculate_nopat`: `normalized_ebit * (1 - effective_tax_rate)`, or
`none` when the tax-provision or pretax-income row is missing. -/
def calculate_nopat (normalized_ebit : ℚ) (income_statement : Statement)
    (num_years : ℕ) : Option ℚ :=
  if income_statement.hasRow S_TAX_PROVISION ∧ income_statement.hasRow S_PRETAX_INCOME then
    some (normalized_ebit * (1 - nopatEffectiveTaxRate income_statement num_years))
  else none

/-! ## `calculate_wacc` (epv_calculator.py lines 250-329) -/

/-- The prioritized debt lookup on the latest balance-sheet column
(lines 276-282, duplicated at lines 366-372): the first of
total debt, short+long-term debt, long-term debt whose row is present
with a non-`NaN` latest cell; `0` when none is. -/
def debtLookup (bs : Statement) : ℚ :=
  match latestCell bs S_TOTAL_DEBT with
  | some v => v
  | none =>
    match latestCell bs S_SHORT_LONG_TERM_DEBT with
    | some v => v
    | none => (latestCell bs S_LONG_TERM_DEBT).getD 0

/-- Per-year tax rates for the cost of debt (lines 291-296): only the
`pretax_income > 0` branch, with no zero-rate special case. -/
def waccDebtTaxRates (is : Statement) (n : ℕ) : List ℚ :=
  (List.zip ((is.getRow S_TAX_PROVISION).take n)
            ((is.getRow S_PRETAX_INCOME).take n)).filterMap
    (fun x => match x with
      | (some t, some p) => if 0 < p then some (t / p) else none
      | _ => none)

/-- The average tax rate applied to the cost of debt (lines 289-298). -/
def waccDebtTaxRate (is : Statement) (n : ℕ) : ℚ :=
  if is.hasRow S_TAX_PROVISION ∧ is.hasRow S_PRETAX_INCOME then
    let rates := waccDebtTaxRates is n
    if rates = [] then DEFAULT_EFFECTIVE_TAX_RATE
    else clampRate (meanQ rates)
  else DEFAULT_EFFECTIVE_TAX_RATE

/-- `abs(interest_expense.mean(skipna=True))` over the first `n` columns
when the row exists, else the literal `0` (lines 300-303); `none` models
the all-`NaN` mean. -/
def avgInterestExpense (is : Statement) (n : ℕ) : Option ℚ :=
  if is.hasRow S_INTEREST_EXPENSE then
    (meanOpt ((is.getRow S_INTEREST_EXPENSE).take n)).map (fun x => |x|)
  else some 0

/-- `calculate_wacc`.  Fails (`none`) when market cap is absent/`NaN`/zero,
when the balance sheet has no columns (the `iloc[:, 0]` access raises and
is caught by the surrounding handler), or when `E + D = 0`.  With zero
detected debt it returns the cost of equity directly. -/
def calculate_wacc (stock_details : StockDetails) (balance_sheet : Statement)
    (income_statement : Statement) (risk_free_rate : ℚ)
    (equity_risk_premium : ℚ) (num_years_tax_rate : ℕ) : Option ℚ :=
  let beta := stock_details.beta.getD DEFAULT_BETA
  let cost_of_equity := risk_free_rate + beta * equity_risk_premium
  match stock_details.market_cap with
  | none => none
  | some E =>
    if E = 0 then none
    else if balance_sheet.cols.length = 0 then none
    else
      let D := debtLookup balance_sheet
      if D = 0 then some cost_of_equity
      else
        let avg_tax_rate_for_debt := waccDebtTaxRate income_statement num_years_tax_rate
        let pre_tax_cost_of_debt :=
          match avgInterestExpense income_statement num_years_tax_rate with
          | none => risk_free_rate + DEBT_RISK_PREMIUM
          | some a =>
            if a = 0 then risk_free_rate + DEBT_RISK_PREMIUM
            else clampCod (a / D)
        let cost_of_debt_after_tax := pre_tax_cost_of_debt * (1 - avg_tax_rate_for_debt)
        let V := E + D
        if V = 0 then none
        else some (E / V * cost_of_equity + D / V * cost_of_debt_after_tax)

/-! ## `calculate_epv` and `calculate_epv_equity` (lines 331-388) -/

/-- `calculate_epv`: `NOPAT / WACC`, failing only when `WACC` is zero
(a `NaN` input is unrepresentable over `ℚ`; upstream `NaN`s are already
`none` and short-circuit before this call).  `maint_capex` is accepted and
ignored exactly as in the source. -/
def calculate_epv (nopat : ℚ) (wacc : ℚ) (maint_capex : ℚ) : Option ℚ :=
  if wacc = 0 then none
  else some (nopat / wacc)

/-- `calculate_epv_equity`: EPV of operations plus cash and short-term
investments, minus debt, preferred stock and noncontrolling interest, all
from the latest balance-sheet column, each defaulting to `0` when absent
or `NaN`.  Fails when the balance sheet has no columns (the `iloc[:, 0]`
access raises and is caught).  `stock_details` is accepted and unused as
in the source. -/
def calculate_epv_equity (epv_operations : ℚ) (balance_sheet : Statement)
    (stock_details : StockDetails) : Option ℚ :=
  if balance_sheet.cols.length = 0 then none
  else
    let excess_cash := (latestCell balance_sheet S_CASH_EQUIVALENTS).getD 0 +
      (latestCell balance_sheet S_SHORT_TERM_INVESTMENTS).getD 0
    let total_debt := debtLookup balance_sheet
    let preferred := (latestCell balance_sheet S_PREFERRED_STOCK_VALUE).getD 0
    let noncontrolling := (latestCell balance_sheet S_NONCONTROLLING_INTEREST).getD 0
    some (epv_operations + excess_cash - total_debt - preferred - noncontrolling)

/-! ## `calculate_maintenance_capex` (lines 104-204) -/

/-- The common columns of the three statements, sorted descending
(`intersection` followed by `sort_index(axis=1, ascending=False)`). -/
def insertDesc (x : Int) : List Int → List Int
  | [] => [x]
  | y :: ys => if y ≤ x then x :: y :: ys else y :: insertDesc x ys

/-- Insertion sort, descending. -/
def sortDesc (l : List Int) : List Int :=
  l.foldr insertDesc []

/-- Columns present in all three statements, most recent first. -/
def commonColsDesc (is bs cf : Statement) : List Int :=
  sortDesc (is.cols.filter (fun c => bs.cols.contains c && cf.cols.contains c))

/-- Gross PPE when its row exists, else net PPE (line 136). -/
def ppeItemToUse (bs : Statement) : String :=
  if bs.hasRow S_GROSS_PPE then S_GROSS_PPE else S_NET_PPE

/-- The valid PPE/Sales ratios (lines 156-161): `PPE[t-1] / sales[t]` for
each year with present, nonzero sales and present prior-year PPE. -/
def ppeSalesHistory (sales ppe : List (Option ℚ)) (n : ℕ) : List ℚ :=
  (List.range (min n (min (sales.length - 1) (ppe.length - 1)))).filterMap
    (fun i => match sales.get? i, ppe.get? (i + 1) with
      | some (some st), some (some pp) => if st ≠ 0 then some (pp / st) else none
      | _, _ => none)

/-- The per-year maintenance-capex estimates (lines 171-182):
`|capex[t]| - avg_ratio * (sales[t] - sales[t-1])` for each year with all
three inputs present. -/
def maintCapexValues (sales capex : List (Option ℚ)) (avg : ℚ) (n : ℕ) : List ℚ :=
  (List.range (min n (min (sales.length - 1) capex.length))).filterMap
    (fun i => match sales.get? i, sales.get? (i + 1), capex.get? i with
      | some (some sc), some (some sp), some (some cx) =>
          some (|cx| - avg * (sc - sp))
      | _, _, _ => none)

/-- The depreciation fallback (lines 186-190): the absolute mean of the
first `n` depreciation cells when the row exists and the mean is not
`NaN`; `none` otherwise. -/
def depFallback (cf : Statement) (cs : List Int) (n : ℕ) : Option ℚ :=
  if cf.hasRow S_DEPRECIATION_CF then
    match meanOpt ((rowAt cf S_DEPRECIATION_CF cs).take n) with
    | some d => some |d|
    | none => none
  else none

/-- `calculate_maintenance_capex` (Greenwald PPE/Sales method).  Note the
source's control flow: when no valid PPE/Sales ratio exists the function
returns `None` at line 165 with no depreciation fallback; the fallback is
consulted only when ratios exist but no per-year maintenance-capex value
could be formed (lines 184-191).  The successful core path floors the
average at zero (line 196); the depreciation-comparison warning at lines
197-198 only prints and does not alter the result. -/
def calculate_maintenance_capex (is bs cf : Statement) (n : ℕ) : Option ℚ :=
  if is.hasRow S_REVENUE ∧ (bs.hasRow S_GROSS_PPE ∨ bs.hasRow S_NET_PPE) ∧
      cf.hasRow S_CAPEX then
    let cs := commonColsDesc is bs cf
    if cs.length < 2 then none
    else
      let sales := (rowAt is S_REVENUE cs).take (n + 1)
      let ppe := (rowAt bs (ppeItemToUse bs) cs).take (n + 1)
      let capex := (rowAt cf S_CAPEX cs).take n
      if sales.length < 2 ∨ ppe.length < 1 ∨ capex.length < 1 then none
      else
        let ratios := ppeSalesHistory sales ppe n
        if ratios = [] then none
        else
          let values := maintCapexValues sales capex (meanQ ratios) n
          if values = [] then depFallback cf cs n
          else some (max 0 (meanQ values))
  else none

/-! ## `run_sensitivity_analysis` (risk_analyzer.py lines 13-142) -/

/-- The base-case inputs dictionary handed to the risk analyzer. -/
structure BaseInputs where
  risk_free_rate : ℚ
  avg_op_margin_base : ℚ
  wacc_base : ℚ
  normalized_ebit_base : ℚ
  nopat_base : ℚ
  maint_capex_base : ℚ
deriving DecidableEq

/-- `np.linspace a b n`: `n` evenly spaced points from `a` to `b`
inclusive (exact over `ℚ`). -/
def linspaceQ (a b : ℚ) (n : ℕ) : List ℚ :=
  if n = 0 then []
  else if n = 1 then [a]
  else (List.range n).map (fun i => a + (i : ℚ) * (b - a) / ((n : ℚ) - 1))

/-- One recorded sensitivity row.  `variation` is the multiplier minus one
(the source formats it as a percentage string); `epv = none` models the
`np.nan` entry recorded for skipped, failed or unrecognized cases. -/
structure SensRow where
  variation : ℚ
  varied : ℚ
  epv : Option ℚ
deriving DecidableEq

/-- The row `run_sensitivity_analysis` records for one variable at one
multiplier (lines 71-135).  The `'WACC'` branch skips non-positive varied
WACC; the `'Avg Op Margin'` branch recomputes EBIT from the latest revenue
(a missing or `NaN` latest revenue makes the whole branch record `NaN`,
matching the caught `KeyError` resp. the `NaN` that then flows into
`calculate_epv`'s `isna` guard); any other variable name matches no branch
and records `NaN` while still filling the varied value. -/
def sensStep (bi : BaseInputs) (is bs : Statement) (details : StockDetails)
    (name : String) (base m : ℚ) : SensRow :=
  if name = "WACC" then
    if base * m ≤ 0 then ⟨m - 1, base * m, none⟩
    else
      ⟨m - 1, base * m,
        (calculate_epv bi.nopat_base (base * m) bi.maint_capex_base).bind
          (fun eo => calculate_epv_equity eo bs details)⟩
  else if name = "Avg Op Margin" then
    match ((is.getRow S_REVENUE).head?).join with
    | none => ⟨m - 1, base * m, none⟩
    | some r =>
      match calculate_nopat (r * (base * m)) is DEFAULT_NORMALIZATION_YEARS with
      | none => ⟨m - 1, base * m, none⟩
      | some tn =>
        ⟨m - 1, base * m,
          (calculate_epv tn bi.wacc_base bi.maint_capex_base).bind
            (fun eo => calculate_epv_equity eo bs details)⟩
  else ⟨m - 1, base * m, none⟩

/-- `run_sensitivity_analysis`: forces an odd number of steps, builds the
multipliers with `np.linspace(1 - range, 1 + range, steps)`, and maps
`sensStep` over them for every sensitized variable. -/
def run_sensitivity_analysis (bi : BaseInputs) (is bs : Statement)
    (details : StockDetails) (vars : List (String × ℚ))
    (sensitivity_range : ℚ) (num_steps : ℕ) : List (String × List SensRow) :=
  let steps := if num_steps % 2 = 0 then num_steps + 1 else num_steps
  let mults := linspaceQ (1 - sensitivity_range) (1 + sensitivity_range) steps
  vars.map (fun v => (v.1, mults.map (fun m => sensStep bi is bs details v.1 v.2 m)))

/-! ## `run_monte_carlo_simulation` (risk_analyzer.py lines 144-247) -/

/-- Python's `%` on integers: raises `ZeroDivisionError` on a zero
divisor. -/
def pyMod (a b : ℕ) : Except String ℕ :=
  if b = 0 then Except.error "integer modulo by zero"
  else Except.ok (a % b)

/-- One Monte Carlo iteration after the progress check (lines 176-232).
The per-iteration `np.random` draws and the `mc_configs` selection logic
are abstracted into the oracle `sample`, which yields the iteration's
sampled `(avg_op_margin, beta)`; everything downstream of the draw is
embedded from the source.  A missing latest revenue makes the iteration
skip (the caught `KeyError`, or the `NaN` EBIT whose NOPAT then fails
`calculate_epv`'s `isna` guard). -/
def mcIterate (sample : ℕ → ℚ × ℚ) (bi : BaseInputs) (is bs : Statement)
    (details : StockDetails) (i : ℕ) : Option ℚ :=
  let mgbeta := sample i
  match ((is.getRow S_REVENUE).head?).join with
  | none => none
  | some r =>
    (calculate_nopat (r * mgbeta.1) is DEFAULT_NORMALIZATION_YEARS).bind fun nopat =>
    (calculate_wacc ⟨some mgbeta.2, details.market_cap⟩ bs is bi.risk_free_rate
        EQUITY_RISK_PREMIUM DEFAULT_WACC_NORMALIZATION_YEARS).bind fun w =>
    if w ≤ 0 then none
    else
      (calculate_epv nopat w bi.maint_capex_base).bind fun eo =>
      calculate_epv_equity eo bs details

/-- The simulation loop (lines 171-236): each iteration first evaluates
the progress expression `(i + 1) % (num_simulations // 10)` — outside the
per-iteration `try` block, so a `ZeroDivisionError` there aborts the whole
run — then runs the iteration body, silently discarding failed
iterations. -/
def mcRun (sample : ℕ → ℚ × ℚ) (bi : BaseInputs) (is bs : Statement)
    (details : StockDetails) (num : ℕ) :
    List ℕ → List ℚ → Except String (List ℚ)
  | [], acc => Except.ok acc
  | i :: rest, acc =>
    match pyMod (i + 1) (num / 10) with
    | Except.error e => Except.error e
    | Except.ok _ =>
      mcRun sample bi is bs details num rest (acc ++ (mcIterate sample bi is bs details i).toList)

/-- `run_monte_carlo_simulation`: the loop over `range(num_simulations)`,
returning the collected valid EPV-equity values or the uncaught
`ZeroDivisionError` of the progress expression. -/
def run_monte_carlo_simulation (sample : ℕ → ℚ × ℚ) (bi : BaseInputs)
    (is bs : Statement) (details : StockDetails) (num_simulations : ℕ) :
    Except String (List ℚ) :=
  mcRun sample bi is bs details num_simulations (List.range num_simulations) []

/-! ## Concrete inputs for the spec's scenario (claim C1) -/

/-- Income statement of the spec's concrete scenario: three descending
years, revenue `[1000, 900, 800]`, operating income `[200, 180, 160]`,
positive pretax income with a tax provision implying a 21% effective rate
each year. -/
def isC1 : Statement :=
  ⟨[3, 2, 1],
   [(S_REVENUE, [some 1000, some 900, some 800]),
    (S_OPERATING_INCOME, [some 200, some 180, some 160]),
    (S_PRETAX_INCOME, [some 200, some 180, some 160]),
    (S_TAX_PROVISION, [some 42, some (189/5), some (168/5)])]⟩

/-- Balance sheet of the scenario: a latest year exists but no debt,
cash, preferred-stock or minority-interest line items. -/
def bsC1 : Statement :=
  ⟨[3], [("Total Stockholder Equity", [some 1000])]⟩

/-- Profile of the scenario: beta 1.0, market cap 5000. -/
def detC1 : StockDetails :=
  ⟨some 1, some 5000⟩

/-- C1: on the concrete scenario (revenue `[1000,900,800]`, operating
income `[200,180,160]`, 21% effective tax rate, beta 1, market cap 5000,
zero debt, risk-free rate 0.04, equity risk premium 0.055, three
normalization years) the pipeline produces an average operating margin of
0.20, normalized EBIT 200, WACC 0.095, NOPAT 158, and EPV of operations
and of equity both `158 / 0.095 = 31600/19`, which is within 0.01 of the
spec's `1663.16`. -/
theorem c1_concrete_scenario :
    calculate_normalized_ebit isC1 3 = some (200, 1/5) ∧
    calculate_nopat 200 isC1 3 = some 158 ∧
    calculate_wacc detC1 bsC1 isC1 (1/25) (11/200) DEFAULT_WACC_NORMALIZATION_YEARS =
      some (19/200) ∧
    calculate_epv 158 (19/200) 0 = some (31600/19) ∧
    calculate_epv_equity (31600/19) bsC1 detC1 = some (31600/19) ∧
    |31600/19 - 166316/100| < (1/100 : ℚ) := by
  refine ⟨?_, ?_, ?_, ?_, ?_, ?_⟩
  · simp [calculate_normalized_ebit, isC1, Statement.hasRow, Statement.getRow, findRow,
      meanOpt, meanQ, divOpt, S_REVENUE, S_OPERATING_INCOME, S_PRETAX_INCOME,
      S_TAX_PROVISION] <;> norm_num
  · simp [calculate_nopat, nopatEffectiveTaxRate, nopatTaxRates, yearTaxRate, clampRate,
      MIN_EFFECTIVE_TAX_RATE, MAX_EFFECTIVE_TAX_RATE, DEFAULT_EFFECTIVE_TAX_RATE,
      isC1, Statement.hasRow, Statement.getRow, findRow, meanQ,
      S_REVENUE, S_OPERATING_INCOME, S_PRETAX_INCOME, S_TAX_PROVISION] <;> norm_num
  · simp [calculate_wacc, debtLookup, latestCell, DEFAULT_BETA,
      DEFAULT_WACC_NORMALIZATION_YEARS, bsC1, detC1, Statement.hasRow, Statement.getRow,
      findRow, S_TOTAL_DEBT, S_SHORT_LONG_TERM_DEBT, S_LONG_TERM_DEBT] <;> norm_num
  · simp [calculate_epv] <;> norm_num
  · simp [calculate_epv_equity, debtLookup, latestCell, bsC1, detC1, Statement.getRow,
      findRow, S_CASH_EQUIVALENTS, S_SHORT_TERM_INVESTMENTS, S_TOTAL_DEBT,
      S_SHORT_LONG_TERM_DEBT, S_LONG_TERM_DEBT, S_PREFERRED_STOCK_VALUE,
      S_NONCONTROLLING_INTEREST] <;> norm_num
  · norm_num [abs_lt]

/-! ## Claim C2: behaviour of `calculate_epv` on non-positive WACC -/

/-- C2 counterexample: the claim that `calculate_epv` fails for every
`WACC ≤ 0` is false — at `NOPAT = 100`, `WACC = -0.1 ≤ 0` the source's
guard (`wacc == 0`) does not fire and a numeric EPV of `-1000` is
returned. -/
theorem c2_counterexample :
    (-1/10 : ℚ) ≤ 0 ∧ calculate_epv 100 (-1/10) 0 = some (-1000) := by
  constructor
  · norm_num
  · simp [calculate_epv]
    norm_num

/-- C2 amended: `calculate_epv` fails exactly when `WACC = 0` (or `NaN`,
unrepresentable over `ℚ`); for every nonzero `WACC` — negative included —
it returns the numeric value `NOPAT / WACC`. -/
theorem c2_amended (nopat wacc mc : ℚ) (h : wacc ≠ 0) :
    calculate_epv nopat wacc mc = some (nopat / wacc) ∧
    calculate_epv nopat 0 mc = none := by
  constructor
  · simp [calculate_epv, h]
  · simp [calculate_epv]

/-- Witness for C2's amended theorem at `NOPAT = 100`, `WACC = -0.1`. -/
theorem c2_amended_witness :
    calculate_epv 100 (-1/10) 0 = some (100 / (-1/10)) ∧
    calculate_epv 100 0 0 = none :=
  c2_amended 100 (-1/10) 0 (by norm_num)

/-! ## Claim C3: zero-debt WACC equals cost of equity -/

/-- C3: when market cap is present and nonzero, a latest balance-sheet
year exists, and none of the three debt line items carries a non-missing
nonzero latest value, `calculate_wacc` returns exactly the cost of equity
`risk_free_rate + beta * equity_risk_premium`, with beta defaulting to
the configured constant when absent or non-numeric. -/
theorem c3_zero_debt_wacc (details : StockDetails) (bs is : Statement)
    (rfr erp : ℚ) (nTax : ℕ) (E : ℚ)
    (hmc : details.market_cap = some E) (hE : E ≠ 0)
    (hcols : bs.cols.length ≠ 0)
    (h1 : latestCell bs S_TOTAL_DEBT = none ∨ latestCell bs S_TOTAL_DEBT = some 0)
    (h2 : latestCell bs S_SHORT_LONG_TERM_DEBT = none ∨
      latestCell bs S_SHORT_LONG_TERM_DEBT = some 0)
    (h3 : latestCell bs S_LONG_TERM_DEBT = none ∨
      latestCell bs S_LONG_TERM_DEBT = some 0) :
    calculate_wacc details bs is rfr erp nTax =
      some (rfr + details.beta.getD DEFAULT_BETA * erp) := by
  have hD : debtLookup bs = 0 := by
    rcases h1 with h1 | h1 <;> rcases h2 with h2 | h2 <;> rcases h3 with h3 | h3 <;>
      simp [debtLookup, h1, h2, h3]
  simp [calculate_wacc, hmc, hE, hcols, hD]

/-- Witness for C3 on the concrete zero-debt scenario data. -/
theorem c3_zero_debt_wacc_witness :
    calculate_wacc detC1 bsC1 isC1 (1/25) (11/200) 5 =
      some (1/25 + detC1.beta.getD DEFAULT_BETA * (11/200)) :=
  c3_zero_debt_wacc detC1 bsC1 isC1 (1/25) (11/200) 5 5000 rfl (by norm_num)
    (by simp [bsC1])
    (Or.inl (by simp [latestCell, Statement.getRow, findRow, bsC1, S_TOTAL_DEBT]))
    (Or.inl (by simp [latestCell, Statement.getRow, findRow, bsC1, S_SHORT_LONG_TERM_DEBT]))
    (Or.inl (by simp [latestCell, Statement.getRow, findRow, bsC1, S_LONG_TERM_DEBT]))

/-! ## Claim C5: which years contribute an effective tax rate -/

/-- Income statement refuting C5 as stated: the second (older) year has
pretax income `-50 ≤ 0` with a zero tax provision. -/
def isC5 : Statement :=
  ⟨[2, 1],
   [(S_TAX_PROVISION, [some 21, some 0]),
    (S_PRETAX_INCOME, [some 100, some (-50)])]⟩

/-- C5 counterexample: the year with pretax income `-50 ≤ 0` contributes
the rate `0` to the historical list (source lines 229-230), so the list
has two entries although only one year has positive pretax income, and
the NOPAT differs from the one the claim's rule would produce
(`100 * (1 - 0.21) = 79`). -/
theorem c5_counterexample :
    isC5.getRow S_PRETAX_INCOME = [some 100, some (-50)] ∧
    nopatTaxRates isC5 3 = [21/100, 0] ∧
    calculate_nopat 100 isC5 3 = some (179/2) ∧
    (179/2 : ℚ) ≠ 100 * (1 - 21/100) := by
  refine ⟨?_, ?_, ?_, by norm_num⟩
  · simp [isC5, Statement.getRow, findRow, S_PRETAX_INCOME, S_TAX_PROVISION]
  · simp [nopatTaxRates, yearTaxRate, isC5, Statement.getRow, findRow,
      S_PRETAX_INCOME, S_TAX_PROVISION] <;> norm_num
  · simp [calculate_nopat, nopatEffectiveTaxRate, nopatTaxRates, yearTaxRate, clampRate,
      MIN_EFFECTIVE_TAX_RATE, MAX_EFFECTIVE_TAX_RATE, DEFAULT_EFFECTIVE_TAX_RATE, meanQ,
      isC5, Statement.hasRow, Statement.getRow, findRow,
      S_PRETAX_INCOME, S_TAX_PROVISION] <;> norm_num

/-- C5 amended: every rate in the historical list comes from a year whose
tax provision and pretax income are both present, and is either
`tax / pretax` for a year with pretax income `> 0`, or the literal rate
`0` for a year with pretax income `≤ 0` and tax provision exactly `0`;
no other year contributes. -/
theorem c5_amended (is : Statement) (n : ℕ) (r : ℚ)
    (hr : r ∈ nopatTaxRates is n) :
    ∃ t p, (some t, some p) ∈ List.zip ((is.getRow S_TAX_PROVISION).take n)
        ((is.getRow S_PRETAX_INCOME).take n) ∧
      ((0 < p ∧ r = t / p) ∨ (t = 0 ∧ p ≤ 0 ∧ r = 0)) := by
  rw [nopatTaxRates, List.mem_filterMap] at hr
  obtain ⟨⟨ot, op⟩, hmem, hy⟩ := hr
  rcases ot with _ | t
  · simp [yearTaxRate] at hy
  rcases op with _ | p
  · simp [yearTaxRate] at hy
  refine ⟨t, p, hmem, ?_⟩
  by_cases h : 0 < p
  · left
    refine ⟨h, ?_⟩
    simp only [yearTaxRate, if_pos h, Option.some.injEq] at hy
    exact hy.symm
  · right
    by_cases ht : t = 0 ∧ p ≤ 0
    · simp only [yearTaxRate, if_neg h, if_pos ht, Option.some.injEq] at hy
      exact ⟨ht.1, ht.2, hy.symm⟩
    · simp [yearTaxRate, h, ht] at hy

/-- Witness for C5's amended theorem: the contributed rate `0` of the
`isC5` data indeed comes from the zero-provision, non-positive-pretax
year. -/
theorem c5_amended_witness :
    ∃ t p, (some t, some p) ∈ List.zip ((isC5.getRow S_TAX_PROVISION).take 3)
        ((isC5.getRow S_PRETAX_INCOME).take 3) ∧
      ((0 < p ∧ (0:ℚ) = t / p) ∨ (t = 0 ∧ p ≤ 0 ∧ (0:ℚ) = 0)) :=
  c5_amended isC5 3 0 (by
    simp [nopatTaxRates, yearTaxRate, isC5, Statement.getRow, findRow,
      S_PRETAX_INCOME, S_TAX_PROVISION])

/-! ## Claim C6: the effective tax rate is always within bounds -/

/-- C6: the effective tax rate `calculate_nopat` applies is always within
`[MIN_EFFECTIVE_TAX_RATE, MAX_EFFECTIVE_TAX_RATE]` (0.05 to 0.40),
whatever the raw historical rates; the default fallback rate 0.21 also
lies inside the bounds. -/
theorem c6_tax_rate_bounds (is : Statement) (n : ℕ) :
    MIN_EFFECTIVE_TAX_RATE ≤ nopatEffectiveTaxRate is n ∧
    nopatEffectiveTaxRate is n ≤ MAX_EFFECTIVE_TAX_RATE ∧
    MIN_EFFECTIVE_TAX_RATE ≤ DEFAULT_EFFECTIVE_TAX_RATE ∧
    DEFAULT_EFFECTIVE_TAX_RATE ≤ MAX_EFFECTIVE_TAX_RATE := by
  refine ⟨?_, ?_, by norm_num [MIN_EFFECTIVE_TAX_RATE, DEFAULT_EFFECTIVE_TAX_RATE],
    by norm_num [MAX_EFFECTIVE_TAX_RATE, DEFAULT_EFFECTIVE_TAX_RATE]⟩ <;>
  · rcases eq_or_ne (nopatTaxRates is n) [] with h | h
    · simp [nopatEffectiveTaxRate, h]
      norm_num [MIN_EFFECTIVE_TAX_RATE, MAX_EFFECTIVE_TAX_RATE, DEFAULT_EFFECTIVE_TAX_RATE]
    · simp only [nopatEffectiveTaxRate, if_neg h, clampRate]
      first
      | exact le_max_left _ _
      | exact max_le (by norm_num [MIN_EFFECTIVE_TAX_RATE, MAX_EFFECTIVE_TAX_RATE])
          (min_le_right _ _)

/-! ## Claim C7: the depreciation fallback of maintenance capex -/

/-- Income statement refuting C7 as stated: revenue present but zero in
every year, so no valid PPE/Sales ratio can be formed. -/
def isC7 : Statement :=
  ⟨[2, 1], [(S_REVENUE, [some 0, some 0])]⟩

/-- Balance sheet for the C7 instance: gross PPE present. -/
def bsC7 : Statement :=
  ⟨[2, 1], [(S_GROSS_PPE, [some 10, some 20])]⟩

/-- Cash-flow statement for the C7 instance: capex present, depreciation
present with average `|mean [30, 10]| = 20`. -/
def cfC7 : Statement :=
  ⟨[2, 1], [(S_CAPEX, [some 5, some 5]), (S_DEPRECIATION_CF, [some 30, some 10])]⟩

/-- C7 counterexample: on this input the core method fails outright at
the ratio stage (no valid PPE/Sales ratio — revenue is zero everywhere)
and depreciation data is available with computable average `20`, yet
`calculate_maintenance_capex` returns `None` (source line 165) instead of
falling back to the average depreciation. -/
theorem c7_counterexample :
    calculate_maintenance_capex isC7 bsC7 cfC7 3 = none ∧
    cfC7.hasRow S_DEPRECIATION_CF = true ∧
    depFallback cfC7 (commonColsDesc isC7 bsC7 cfC7) 3 = some 20 ∧
    ppeSalesHistory ((rowAt isC7 S_REVENUE (commonColsDesc isC7 bsC7 cfC7)).take 4)
      ((rowAt bsC7 (ppeItemToUse bsC7) (commonColsDesc isC7 bsC7 cfC7)).take 4) 3 = [] := by
  refine ⟨?_, ?_, ?_, ?_⟩
  · simp [calculate_maintenance_capex, commonColsDesc, sortDesc, insertDesc, ppeItemToUse,
      ppeSalesHistory, maintCapexValues, depFallback, meanQ, meanOpt, rowAt, Statement.cell,
      idxOfCol, Statement.hasRow, Statement.getRow, findRow, isC7, bsC7, cfC7,
      S_REVENUE, S_GROSS_PPE, S_NET_PPE, S_CAPEX, S_DEPRECIATION_CF, List.range_succ]
  · simp [Statement.hasRow, findRow, cfC7, S_CAPEX, S_DEPRECIATION_CF]
  · simp [depFallback, commonColsDesc, sortDesc, insertDesc, meanOpt, meanQ, rowAt,
      Statement.cell, idxOfCol, Statement.hasRow, Statement.getRow, findRow, isC7, bsC7,
      cfC7, S_REVENUE, S_CAPEX, S_DEPRECIATION_CF] <;> norm_num
  · simp [ppeSalesHistory, commonColsDesc, sortDesc, insertDesc, ppeItemToUse, rowAt,
      Statement.cell, idxOfCol, Statement.hasRow, Statement.getRow, findRow, isC7, bsC7,
      cfC7, S_REVENUE, S_GROSS_PPE, S_CAPEX, S_DEPRECIATION_CF, List.range_succ]

/-- C7 amended: the depreciation fallback is consulted only at the
second failure point — when per-year maintenance-capex values could not
be formed; if additionally no valid PPE/Sales ratio exists, the function
returns `None` without the fallback.  (Hypotheses: the required line
items are present and the alignment guards pass.) -/
theorem c7_amended (is bs cf : Statement) (n : ℕ)
    (hreq : is.hasRow S_REVENUE ∧ (bs.hasRow S_GROSS_PPE ∨ bs.hasRow S_NET_PPE) ∧
      cf.hasRow S_CAPEX)
    (hcols : ¬ (commonColsDesc is bs cf).length < 2)
    (hlen : ¬ (((rowAt is S_REVENUE (commonColsDesc is bs cf)).take (n + 1)).length < 2 ∨
      ((rowAt bs (ppeItemToUse bs) (commonColsDesc is bs cf)).take (n + 1)).length < 1 ∨
      ((rowAt cf S_CAPEX (commonColsDesc is bs cf)).take n).length < 1))
    (hvals : maintCapexValues ((rowAt is S_REVENUE (commonColsDesc is bs cf)).take (n + 1))
      ((rowAt cf S_CAPEX (commonColsDesc is bs cf)).take n)
      (meanQ (ppeSalesHistory ((rowAt is S_REVENUE (commonColsDesc is bs cf)).take (n + 1))
        ((rowAt bs (ppeItemToUse bs) (commonColsDesc is bs cf)).take (n + 1)) n)) n = []) :
    calculate_maintenance_capex is bs cf n =
      if ppeSalesHistory ((rowAt is S_REVENUE (commonColsDesc is bs cf)).take (n + 1))
          ((rowAt bs (ppeItemToUse bs) (commonColsDesc is bs cf)).take (n + 1)) n = [] then
        none
      else depFallback cf (commonColsDesc is bs cf) n := by
  rw [calculate_maintenance_capex, if_pos hreq]
  simp only [if_neg hcols, if_neg hlen]
  rw [if_pos hvals]

/-- Witness for C7's amended theorem: ratios exist (`[20/100]`) but no
per-year value can be formed (capex is `NaN` in every year), and the
function indeed returns the depreciation fallback. -/
def isW7 : Statement :=
  ⟨[2, 1], [(S_REVENUE, [some 100, some 50])]⟩

/-- Balance sheet for the C7 witness. -/
def bsW7 : Statement :=
  ⟨[2, 1], [(S_GROSS_PPE, [some 10, some 20])]⟩

/-- Cash-flow statement for the C7 witness: capex row present but all
`NaN`, depreciation `[30, 10]`. -/
def cfW7 : Statement :=
  ⟨[2, 1], [(S_CAPEX, [none, none]), (S_DEPRECIATION_CF, [some 30, some 10])]⟩

/-- Witness applying `c7_amended` to the `isW7`/`bsW7`/`cfW7` data. -/
theorem c7_amended_witness :
    calculate_maintenance_capex isW7 bsW7 cfW7 3 =
      if ppeSalesHistory ((rowAt isW7 S_REVENUE (commonColsDesc isW7 bsW7 cfW7)).take 4)
          ((rowAt bsW7 (ppeItemToUse bsW7) (commonColsDesc isW7 bsW7 cfW7)).take 4) 3 = [] then
        none
      else depFallback cfW7 (commonColsDesc isW7 bsW7 cfW7) 3 :=
  c7_amended isW7 bsW7 cfW7 3
    (by refine ⟨?_, Or.inl ?_, ?_⟩ <;>
      simp [Statement.hasRow, findRow, isW7, bsW7, cfW7, S_REVENUE, S_GROSS_PPE, S_CAPEX,
        S_DEPRECIATION_CF])
    (by simp [commonColsDesc, sortDesc, insertDesc, isW7, bsW7, cfW7])
    (by simp [rowAt, commonColsDesc, sortDesc, insertDesc, isW7, bsW7, cfW7])
    (by simp [maintCapexValues, ppeSalesHistory, ppeItemToUse, rowAt, Statement.cell,
      idxOfCol, Statement.hasRow, Statement.getRow, findRow, commonColsDesc, sortDesc,
      insertDesc, meanQ, isW7, bsW7, cfW7, S_REVENUE, S_GROSS_PPE, S_CAPEX,
      S_DEPRECIATION_CF, List.range_succ])

/-! ## Claim C8: a returned maintenance-capex estimate is never negative -/

/-- C8: whenever `calculate_maintenance_capex` returns a numeric
estimate — through the core PPE/Sales path (floored at zero) or the
depreciation fallback (an absolute value) — that estimate is
nonnegative. -/
theorem c8_maint_capex_nonneg (is bs cf : Statement) (n : ℕ) (v : ℚ)
    (h : calculate_maintenance_capex is bs cf n = some v) : 0 ≤ v := by
  simp only [calculate_maintenance_capex] at h
  split at h
  · split at h
    · simp at h
    · split at h
      · simp at h
      · split at h
        · simp at h
        · split at h
          · simp only [depFallback] at h
            split at h
            · split at h
              · injection h with h
                rw [← h]
                exact abs_nonneg _
              · simp at h
            · simp at h
          · injection h with h
            rw [← h]
            exact le_max_left 0 _
  · simp at h

/-- Witness for C8: on data taking the successful core path the estimate
is `20`, and the theorem yields `0 ≤ 20`. -/
def isW8 : Statement :=
  ⟨[2, 1], [(S_REVENUE, [some 100, some 50])]⟩

/-- Balance sheet for the C8 witness. -/
def bsW8 : Statement :=
  ⟨[2, 1], [(S_GROSS_PPE, [some 10, some 20])]⟩

/-- Cash-flow statement for the C8 witness. -/
def cfW8 : Statement :=
  ⟨[2, 1], [(S_CAPEX, [some (-30), some 5])]⟩

/-- Witness applying `c8_maint_capex_nonneg` at the `isW8` data. -/
theorem c8_maint_capex_nonneg_witness :
    calculate_maintenance_capex isW8 bsW8 cfW8 3 = some 20 ∧ (0:ℚ) ≤ 20 := by
  have h : calculate_maintenance_capex isW8 bsW8 cfW8 3 = some 20 := by
    simp [calculate_maintenance_capex, commonColsDesc, sortDesc, insertDesc, ppeItemToUse,
      ppeSalesHistory, maintCapexValues, depFallback, meanQ, meanOpt, rowAt, Statement.cell,
      idxOfCol, Statement.hasRow, Statement.getRow, findRow, isW8, bsW8, cfW8,
      S_REVENUE, S_GROSS_PPE, S_NET_PPE, S_CAPEX, S_DEPRECIATION_CF, List.range_succ]
    norm_num
  exact ⟨h, c8_maint_capex_nonneg isW8 bsW8 cfW8 3 20 h⟩

/-! ## Claim C9: Monte Carlo aborts for small simulation counts -/

/-- C9: for every `num_simulations` with `1 ≤ num_simulations < 10`, the
progress expression `(i + 1) % (num_simulations // 10)` of
`run_monte_carlo_simulation` divides by zero in the very first iteration
— before any iteration completes — so the whole batch aborts with the
uncaught `ZeroDivisionError` instead of returning a result, whatever the
sampled values and input data. -/
theorem c9_monte_carlo_zero_div (sample : ℕ → ℚ × ℚ) (bi : BaseInputs)
    (is bs : Statement) (details : StockDetails) (n : ℕ)
    (h1 : 1 ≤ n) (h2 : n < 10) :
    run_monte_carlo_simulation sample bi is bs details n =
      Except.error "integer modulo by zero" := by
  obtain ⟨k, rfl⟩ : ∃ k, n = k + 1 := ⟨n - 1, by omega⟩
  have hdiv : (k + 1) / 10 = 0 := Nat.div_eq_of_lt h2
  rw [run_monte_carlo_simulation, List.range_succ_eq_map]
  simp [mcRun, pyMod, hdiv]

/-- Witness for C9 at `num_simulations = 5`. -/
theorem c9_monte_carlo_zero_div_witness :
    (1:ℕ) ≤ 5 ∧ (5:ℕ) < 10 ∧
    run_monte_carlo_simulation (fun _ => (0, 0)) ⟨0, 0, 0, 0, 0, 0⟩ ⟨[], []⟩ ⟨[], []⟩
      ⟨none, none⟩ 5 = Except.error "integer modulo by zero" :=
  ⟨by norm_num, by norm_num,
    c9_monte_carlo_zero_div (fun _ => (0, 0)) ⟨0, 0, 0, 0, 0, 0⟩ ⟨[], []⟩ ⟨[], []⟩
      ⟨none, none⟩ 5 (by norm_num) (by norm_num)⟩

/-! ## Claim C10: unrecognized sensitivity variables record only NaN -/

/-- C10: for a sensitized variable whose name is neither `'WACC'` nor
`'Avg Op Margin'`, no recalculation branch exists: every recorded row has
`EPV Equity = NaN` while the varied-value column is still filled with
`base_value * multiplier`. -/
theorem c10_unknown_variable_rows (bi : BaseInputs) (is bs : Statement)
    (details : StockDetails) (name : String) (base rng : ℚ) (steps : ℕ)
    (h1 : name ≠ "WACC") (h2 : name ≠ "Avg Op Margin") :
    ∀ row ∈ (List.map Prod.snd
        (run_sensitivity_analysis bi is bs details [(name, base)] rng steps)).flatten,
      row.epv = none ∧ row.varied = base * (row.variation + 1) := by
  intro row hrow
  simp only [run_sensitivity_analysis, List.map_cons, List.map_nil, List.flatten_cons,
    List.flatten_nil, List.append_nil, List.mem_map] at hrow
  obtain ⟨m, _, rfl⟩ := hrow
  simp only [sensStep, if_neg h1, if_neg h2]
  constructor
  · trivial
  · show base * m = base * (m - 1 + 1)
    ring

/-- Witness for C10: the first recorded row for a variable named
`'Tax Rate'` (base value 2, default range and steps). -/
theorem c10_unknown_variable_rows_witness :
    (⟨-1/5, 8/5, none⟩ : SensRow).epv = none ∧
    (⟨-1/5, 8/5, none⟩ : SensRow).varied = 2 * ((⟨-1/5, 8/5, none⟩ : SensRow).variation + 1) :=
  c10_unknown_variable_rows ⟨0, 0, 0, 0, 0, 0⟩ ⟨[], []⟩ ⟨[], []⟩ ⟨none, none⟩
    "Tax Rate" 2 SENSITIVITY_RANGE_PERCENT SENSITIVITY_STEPS
    (by simp) (by simp)
    ⟨-1/5, 8/5, none⟩
    (by
      simp [run_sensitivity_analysis, linspaceQ, sensStep, SENSITIVITY_RANGE_PERCENT,
        SENSITIVITY_STEPS, List.range_succ]
      norm_num)

/-! ## Claim C4: the 0%-variation sensitivity row reproduces the base case -/

/-- The head of a prefix is the head of the whole list. -/
theorem head?_take {α : Type} (l : List α) (n : ℕ) (x : α)
    (h : (l.take n).head? = some x) : l.head? = some x := by
  cases n with
  | zero => simp at h
  | succ n =>
    cases l with
    | nil => simp at h
    | cons a l => simpa using h

/-- Inversion of a successful `calculate_normalized_ebit`: the latest
revenue is present and the normalized EBIT is exactly
`latest_revenue * average_margin`. -/
theorem calculate_normalized_ebit_eq (is : Statement) (n : ℕ) (e mg : ℚ)
    (h : calculate_normalized_ebit is n = some (e, mg)) :
    ∃ r, ((is.getRow S_REVENUE).head?).join = some r ∧ e = r * mg := by
  simp only [calculate_normalized_ebit] at h
  by_cases hrows : (is.hasRow S_REVENUE ∧ is.hasRow S_OPERATING_INCOME : Prop)
  · rw [if_pos hrows] at h
    by_cases hcols : is.cols.length = 0
    · rw [if_pos hcols] at h
      simp at h
    · rw [if_neg hcols] at h
      rcases hm : meanOpt (List.zipWith divOpt ((is.getRow S_OPERATING_INCOME).take n)
          ((is.getRow S_REVENUE).take n)) with _ | avg
      · rw [hm] at h
        simp at h
      · rw [hm] at h
        rcases hd : ((is.getRow S_REVENUE).take n).head? with _ | c
        · rw [hd] at h
          simp at h
        · rw [hd] at h
          rcases c with _ | latest
          · simp at h
          · simp only [Option.some.injEq, Prod.mk.injEq] at h
            refine ⟨latest, ?_, ?_⟩
            · rw [head?_take _ _ _ hd]
              rfl
            · rw [← h.1, ← h.2]
  · rw [if_neg hrows] at h
    simp at h

/-- The `'WACC'` sensitivity step at the unperturbed multiplier `1`. -/
theorem sensStep_wacc_one (bi : BaseInputs) (is bs : Statement)
    (details : StockDetails) (base : ℚ) (hb : 0 < base) :
    sensStep bi is bs details "WACC" base 1 =
      ⟨0, base, (calculate_epv bi.nopat_base base bi.maint_capex_base).bind
        (fun eo => calculate_epv_equity eo bs details)⟩ := by
  simp only [sensStep, if_pos rfl, mul_one]
  rw [if_neg (not_le.2 hb)]
  norm_num

/-- The `'Avg Op Margin'` sensitivity step at the unperturbed
multiplier `1`, given the latest revenue and the recomputed NOPAT. -/
theorem sensStep_margin_one (bi : BaseInputs) (is bs : Statement)
    (details : StockDetails) (mg r nopat : ℚ)
    (hr : ((is.getRow S_REVENUE).head?).join = some r)
    (hn : calculate_nopat (r * mg) is DEFAULT_NORMALIZATION_YEARS = some nopat) :
    sensStep bi is bs details "Avg Op Margin" mg 1 =
      ⟨0, mg, (calculate_epv nopat bi.wacc_base bi.maint_capex_base).bind
        (fun eo => calculate_epv_equity eo bs details)⟩ := by
  have hne : ("Avg Op Margin" : String) ≠ "WACC" := by simp
  simp only [sensStep, mul_one, if_neg hne, if_true]
  rw [hr]
  simp only [hn]
  norm_num

/-- C4: with the shipped configuration (range ±20%, 5 steps) and base
inputs produced by the calculation chain itself (`hEbit`, `hNopat`,
`hEq`) and a positive base WACC, the row at index 2 — the 0%-variation
row, multiplier exactly 1 — of both sensitized variables (`'WACC'` and
`'Avg Op Margin'`) reproduces the unperturbed base-case EPV-equity
exactly. -/
theorem c4_sensitivity_zero_variation (bi : BaseInputs) (is bs : Statement)
    (details : StockDetails) (nE : ℕ) (ebit margin nopat eqBase : ℚ)
    (hEbit : calculate_normalized_ebit is nE = some (ebit, margin))
    (hNopat : calculate_nopat ebit is DEFAULT_NORMALIZATION_YEARS = some nopat)
    (hbiN : bi.nopat_base = nopat)
    (hW : 0 < bi.wacc_base)
    (hEq : (calculate_epv nopat bi.wacc_base bi.maint_capex_base).bind
        (fun eo => calculate_epv_equity eo bs details) = some eqBase) :
    (run_sensitivity_analysis bi is bs details
        [("WACC", bi.wacc_base), ("Avg Op Margin", margin)]
        SENSITIVITY_RANGE_PERCENT SENSITIVITY_STEPS).map (fun p => p.2.get? 2) =
      [some ⟨0, bi.wacc_base, some eqBase⟩, some ⟨0, margin, some eqBase⟩] := by
  obtain ⟨r, hr, hre⟩ := calculate_normalized_ebit_eq is nE ebit margin hEbit
  have hn2 : calculate_nopat (r * margin) is DEFAULT_NORMALIZATION_YEARS = some nopat := by
    rw [← hre]
    exact hNopat
  have hmults : linspaceQ (1 - SENSITIVITY_RANGE_PERCENT) (1 + SENSITIVITY_RANGE_PERCENT)
      (if SENSITIVITY_STEPS % 2 = 0 then SENSITIVITY_STEPS + 1 else SENSITIVITY_STEPS) =
      [4/5, 9/10, 1, 11/10, 6/5] := by
    simp [linspaceQ, SENSITIVITY_RANGE_PERCENT, SENSITIVITY_STEPS, List.range_succ]
    norm_num
  simp only [run_sensitivity_analysis, hmults, List.map_cons, List.map_nil]
  rw [sensStep_wacc_one bi is bs details bi.wacc_base hW,
    sensStep_margin_one bi is bs details margin r nopat hr hn2, hbiN, hEq]
  simp

/-- Witness for C4 on the concrete scenario data: both 0%-variation rows
equal the base-case EPV-equity `31600/19`. -/
theorem c4_sensitivity_zero_variation_witness :
    (run_sensitivity_analysis ⟨1/25, 1/5, 19/200, 200, 158, 0⟩ isC1 bsC1 detC1
        [("WACC", (⟨1/25, 1/5, 19/200, 200, 158, 0⟩ : BaseInputs).wacc_base),
         ("Avg Op Margin", 1/5)]
        SENSITIVITY_RANGE_PERCENT SENSITIVITY_STEPS).map (fun p => p.2.get? 2) =
      [some ⟨0, (⟨1/25, 1/5, 19/200, 200, 158, 0⟩ : BaseInputs).wacc_base, some (31600/19)⟩,
       some ⟨0, 1/5, some (31600/19)⟩] :=
  c4_sensitivity_zero_variation ⟨1/25, 1/5, 19/200, 200, 158, 0⟩ isC1 bsC1 detC1 3
    200 (1/5) 158 (31600/19)
    (by simp [calculate_normalized_ebit, isC1, Statement.hasRow, Statement.getRow, findRow,
      meanOpt, meanQ, divOpt, S_REVENUE, S_OPERATING_INCOME, S_PRETAX_INCOME,
      S_TAX_PROVISION] <;> norm_num)
    (by simp [calculate_nopat, nopatEffectiveTaxRate, nopatTaxRates, yearTaxRate, clampRate,
      MIN_EFFECTIVE_TAX_RATE, MAX_EFFECTIVE_TAX_RATE, DEFAULT_EFFECTIVE_TAX_RATE,
      DEFAULT_NORMALIZATION_YEARS, isC1, Statement.hasRow, Statement.getRow, findRow, meanQ,
      S_REVENUE, S_OPERATING_INCOME, S_PRETAX_INCOME, S_TAX_PROVISION] <;> norm_num)
    rfl
    (by norm_num)
    (by
      have h1 : calculate_epv 158 (19/200) 0 = some (31600/19) := by
        simp [calculate_epv]
        norm_num
      have h2 : calculate_epv_equity (31600/19) bsC1 detC1 = some (31600/19) := by
        simp [calculate_epv_equity, debtLookup, latestCell, bsC1, detC1, Statement.getRow,
          findRow, S_CASH_EQUIVALENTS, S_SHORT_TERM_INVESTMENTS, S_TOTAL_DEBT,
          S_SHORT_LONG_TERM_DEBT, S_LONG_TERM_DEBT, S_PREFERRED_STOCK_VALUE,
          S_NONCONTROLLING_INTEREST] <;> norm_num
      show (calculate_epv 158 (19/200) 0).bind
          (fun eo => calculate_epv_equity eo bsC1 detC1) = some (31600/19)
      rw [h1]
      exact h2)

end EPV
